import Mathlib

/-!
Shallow embedding of `src/src/cone-animation.ts` (class `ConeAnimation`), a
WebGL cone SLERP-animation engine, together with the parts of the `gl-matrix`
library (`vec3.normalize`, `quat.rotationTo`, `quat.setAxisAngle`,
`quat.normalize`, `quat.slerp`) that the class calls.  JavaScript doubles are
idealised as real numbers; GPU buffer uploads are modelled by storing the
uploaded arrays in the engine state.
-/

namespace ConeAnim

noncomputable section

/-- A 3-component vector, as used by gl-matrix `vec3`. -/
structure Vec3 where
  x : ℝ
  y : ℝ
  z : ℝ

/-- A quaternion (x, y, z, w), as used by gl-matrix `quat`; `quat.create()` is
`(0,0,0,1)`. -/
structure Quat where
  x : ℝ
  y : ℝ
  z : ℝ
  w : ℝ

/-- gl-matrix `vec3.dot`. -/
def vec3dot (a b : Vec3) : ℝ := a.x * b.x + a.y * b.y + a.z * b.z

/-- gl-matrix `vec3.cross`. -/
def vec3cross (a b : Vec3) : Vec3 :=
  ⟨a.y * b.z - a.z * b.y, a.z * b.x - a.x * b.z, a.x * b.y - a.y * b.x⟩

/-- gl-matrix `vec3.length`: the Euclidean norm. -/
def vec3len (a : Vec3) : ℝ := Real.sqrt (a.x * a.x + a.y * a.y + a.z * a.z)

/-- gl-matrix `vec3.normalize`: `len = x*x+y*y+z*z; if (len > 0) len = 1/sqrt(len);
out = a * len`.  Note that a zero vector is mapped to the zero vector (no error). -/
def vec3normalize (a : Vec3) : Vec3 :=
  let len := a.x * a.x + a.y * a.y + a.z * a.z
  let l := if 0 < len then 1 / Real.sqrt len else len
  ⟨a.x * l, a.y * l, a.z * l⟩

/-- gl-matrix `vec3.scale`. -/
def vec3scale (a : Vec3) (s : ℝ) : Vec3 := ⟨a.x * s, a.y * s, a.z * s⟩

/-- gl-matrix `quat.setAxisAngle(out, axis, rad)`:
`rad *= 0.5; s = sin(rad); out = (s*axis, cos(rad))`. -/
def quatSetAxisAngle (axis : Vec3) (rad : ℝ) : Quat :=
  let r := rad * 0.5
  ⟨Real.sin r * axis.x, Real.sin r * axis.y, Real.sin r * axis.z, Real.cos r⟩

/-- gl-matrix `quat.normalize` (vec4 normalize):
`len = x*x+y*y+z*z+w*w; if (len > 0) len = 1/sqrt(len); out = q * len`. -/
def quatNormalize (q : Quat) : Quat :=
  let len := q.x * q.x + q.y * q.y + q.z * q.z + q.w * q.w
  let l := if 0 < len then 1 / Real.sqrt len else len
  ⟨q.x * l, q.y * l, q.z * l, q.w * l⟩

/-- gl-matrix `quat.rotationTo(out, a, b)`: shortest-arc rotation taking unit
vector `a` to unit vector `b`, with an explicit antiparallel branch
(`dot < -0.999999`) that rotates by π about a perpendicular axis. -/
def quatRotationTo (a b : Vec3) : Quat :=
  let d := vec3dot a b
  if d < -0.999999 then
    let tmp0 := vec3cross ⟨1, 0, 0⟩ a
    let tmp1 := if vec3len tmp0 < 0.000001 then vec3cross ⟨0, 1, 0⟩ a else tmp0
    quatSetAxisAngle (vec3normalize tmp1) Real.pi
  else if 0.999999 < d then
    ⟨0, 0, 0, 1⟩
  else
    let c := vec3cross a b
    quatNormalize ⟨c.x, c.y, c.z, 1 + d⟩

/-- Componentwise negation of a quaternion. -/
def quatNeg (q : Quat) : Quat := ⟨-q.x, -q.y, -q.z, -q.w⟩

/-- gl-matrix `quat.slerp(out, a, b, t)` with `EPSILON = 0.000001`: negate `b`
when the dot product is negative (shortest path), then either the spherical
weights `sin((1-t)ω)/sin ω`, `sin(tω)/sin ω` with `ω = acos |dot|`, or the
linear weights `1-t`, `t` when the quaternions are nearly aligned. -/
def quatSlerp (a b : Quat) (t : ℝ) : Quat :=
  let cosom0 := a.x * b.x + a.y * b.y + a.z * b.z + a.w * b.w
  let c := if cosom0 < 0 then -cosom0 else cosom0
  let bq := if cosom0 < 0 then quatNeg b else b
  let omega := Real.arccos c
  let sinom := Real.sin omega
  let scale0 := if 0.000001 < 1 - c then Real.sin ((1 - t) * omega) / sinom else 1 - t
  let scale1 := if 0.000001 < 1 - c then Real.sin (t * omega) / sinom else t
  ⟨scale0 * a.x + scale1 * bq.x, scale0 * a.y + scale1 * bq.y,
   scale0 * a.z + scale1 * bq.z, scale0 * a.w + scale1 * bq.w⟩

/-- Squared norm of a quaternion; a unit quaternion has `quatNormSq q = 1`. -/
def quatNormSq (q : Quat) : ℝ := q.x * q.x + q.y * q.y + q.z * q.z + q.w * q.w

/-- The `ConeParams` interface: `{ radius, height, segments }`. -/
structure ConeParams where
  radius : ℝ
  height : ℝ
  segments : ℕ

/-- A partial update of `ConeParams`, modelling TypeScript `Partial<ConeParams>`
as used by `setConeParams`. -/
structure ConeParamsPatch where
  radius : Option ℝ := none
  height : Option ℝ := none
  segments : Option ℕ := none

/-- The spread-merge `{ ...this.coneParams, ...params }` in `setConeParams`. -/
def mergeConeParams (p : ConeParams) (q : ConeParamsPatch) : ConeParams :=
  ⟨q.radius.getD p.radius, q.height.getD p.height, q.segments.getD p.segments⟩

/-- The vertex/normal/index arrays produced by `generateCone` (the data that is
uploaded into the cone's GPU buffers).  Vertices are grouped as points rather
than a flat float array, preserving order. -/
structure Mesh where
  vertices : List Vec3
  normals : List Vec3
  indices : List ℕ

/-- The body of `ConeAnimation.generateCone`, as a pure function of the cone
parameters: one apex vertex, `segments+1` base-ring vertices (seam duplicated),
one base-center vertex; `segments` side triangles fanning from the apex and
`segments` base triangles fanning from the base-center (pushed with
`i = segments` down to `1`).  No input validation is performed. -/
def generateCone (p : ConeParams) : Mesh :=
  let sideNormalY := p.radius / Real.sqrt (p.radius * p.radius + p.height * p.height)
  let sideNormalXZ := p.height / Real.sqrt (p.radius * p.radius + p.height * p.height)
  let ringVertices := (List.range (p.segments + 1)).map (fun (i : ℕ) =>
    let theta := ((i : ℝ) / (p.segments : ℝ)) * Real.pi * 2
    Vec3.mk (p.radius * Real.cos theta) (-(p.height / 2)) (p.radius * Real.sin theta))
  let ringNormals := (List.range (p.segments + 1)).map (fun (i : ℕ) =>
    let theta := ((i : ℝ) / (p.segments : ℝ)) * Real.pi * 2
    Vec3.mk (sideNormalXZ * Real.cos theta) sideNormalY (sideNormalXZ * Real.sin theta))
  let sideIndices := (List.range p.segments).flatMap (fun i => [0, i + 1, i + 2])
  let baseCenter := 1 + (p.segments + 1)
  let baseIndices := ((List.range p.segments).map (fun k => p.segments - k)).flatMap
    (fun i => [baseCenter, i + 1, i])
  { vertices := Vec3.mk 0 (p.height / 2) 0 :: ringVertices ++ [Vec3.mk 0 (-(p.height / 2)) 0],
    normals := Vec3.mk 0 1 0 :: ringNormals ++ [Vec3.mk 0 (-1) 0],
    indices := sideIndices ++ baseIndices }

/-- The mutable fields of the `ConeAnimation` class that the core algorithms
read and write.  GPU buffer contents for the cone are modelled by `mesh`;
`coneVertexCount` mirrors the field of the same name (set to the index count). -/
structure EngineState where
  coneParams : ConeParams
  startAxis : Vec3
  startQuat : Quat
  endAxis : Vec3
  endQuat : Quat
  animationProgress : ℝ
  isAnimating : Bool
  animationSpeed : ℝ
  showIntermediateFrames : Bool
  intermediateFrames : List Quat
  loopAnimation : Bool
  mesh : Mesh
  coneVertexCount : ℕ

/-- The fixed reference-up vector `(0,1,0)` used in `updateOrientationQuaternions`. -/
def upVector : Vec3 := ⟨0, 1, 0⟩

/-- The body of `generateIntermediateFrames`: rebuilds the table as
`slerp(startQuat, endQuat, i/steps)` for `i = 0..steps` with `steps = 20`
(21 entries). -/
def generateIntermediateFrames (s : EngineState) : EngineState :=
  { s with intermediateFrames :=
      (List.range 21).map (fun (i : ℕ) => quatSlerp s.startQuat s.endQuat ((i : ℝ) / 20)) }

/-- The body of `updateOrientationQuaternions`: re-derives both quaternions
from the stored axes via `quat.rotationTo` from reference-up, then regenerates
the intermediate-frame table. -/
def updateOrientationQuaternions (s : EngineState) : EngineState :=
  generateIntermediateFrames
    { s with startQuat := quatRotationTo upVector s.startAxis,
             endQuat := quatRotationTo upVector s.endAxis }

/-- The engine state as established by the `ConeAnimation` constructor:
default cone parameters `{1, 2, 32}`, start axis `(0,1,0)`, end axis `(1,0,0)`,
`progress = 0`, not animating, speed `0.01`, trail shown, looping; the
constructor ends by calling `updateOrientationQuaternions()`.  The mesh buffers
are empty until `generateCone` runs. -/
def initialState : EngineState :=
  updateOrientationQuaternions
    { coneParams := ⟨1, 2, 32⟩,
      startAxis := ⟨0, 1, 0⟩, startQuat := ⟨0, 0, 0, 1⟩,
      endAxis := ⟨1, 0, 0⟩, endQuat := ⟨0, 0, 0, 1⟩,
      animationProgress := 0, isAnimating := false, animationSpeed := 0.01,
      showIntermediateFrames := true, intermediateFrames := [],
      loopAnimation := true, mesh := ⟨[], [], []⟩, coneVertexCount := 0 }

/-- `setStartAxis(axis)`: stores the normalized input in `startOrientation.axis`
(writing in place via `vec3.normalize`), then calls
`updateOrientationQuaternions()`.  No validation: a zero vector normalizes to
the zero vector and is stored. -/
def setStartAxis (s : EngineState) (axis : Vec3) : EngineState :=
  updateOrientationQuaternions { s with startAxis := vec3normalize axis }

/-- `setEndAxis(axis)`: same as `setStartAxis` for the end orientation. -/
def setEndAxis (s : EngineState) (axis : Vec3) : EngineState :=
  updateOrientationQuaternions { s with endAxis := vec3normalize axis }

/-- `startAnimation()`: sets `isAnimating = true` and `animationProgress = 0`. -/
def startAnimation (s : EngineState) : EngineState :=
  { s with isAnimating := true, animationProgress := 0 }

/-- `stopAnimation()`: sets `isAnimating = false`. -/
def stopAnimation (s : EngineState) : EngineState :=
  { s with isAnimating := false }

/-- `resetAnimation()`: sets `animationProgress = 0` and `isAnimating = false`. -/
def resetAnimation (s : EngineState) : EngineState :=
  { s with animationProgress := 0, isAnimating := false }

/-- `setAnimationSpeed(speed)`: stores the given speed unconditionally
(no validation). -/
def setAnimationSpeed (s : EngineState) (speed : ℝ) : EngineState :=
  { s with animationSpeed := speed }

/-- `setShowIntermediateFrames(show)`. -/
def setShowIntermediateFrames (s : EngineState) (b : Bool) : EngineState :=
  { s with showIntermediateFrames := b }

/-- `setLoopAnimation(loop)`. -/
def setLoopAnimation (s : EngineState) (loop : Bool) : EngineState :=
  { s with loopAnimation := loop }

/-- `setConeParams(params)`: spread-merges the patch into `coneParams`, then
calls `generateCone()` which rebuilds the buffers and sets
`coneVertexCount = indices.length`.  No validation. -/
def setConeParams (s : EngineState) (q : ConeParamsPatch) : EngineState :=
  let p := mergeConeParams s.coneParams q
  { s with coneParams := p, mesh := generateCone p,
           coneVertexCount := (generateCone p).indices.length }

/-- `getAnimationProgress()`. -/
def getAnimationProgress (s : EngineState) : ℝ := s.animationProgress

/-- The orientation sampled during playback (`render`, else-branch): SLERP
between the two stored quaternions computed directly at `t`, not looked up
from the table. -/
def sample (s : EngineState) (t : ℝ) : Quat :=
  quatSlerp s.startQuat s.endQuat t

/-- One cone draw call issued by `render`: the rotation quaternion and the
alpha passed to `drawCone`. -/
structure DrawCone where
  rotation : Quat
  alpha : ℝ

/-- The cone draw calls issued by one `render()` pass, in order: if the trail
is shown and the clock is not animating, one `drawCone(frames[i], 0.15 +
(i / frames.length) * 0.3)` per table entry; otherwise a single fully opaque
cone at the directly-slerped current progress. -/
def renderDrawList (s : EngineState) : List DrawCone :=
  if s.showIntermediateFrames && !s.isAnimating then
    s.intermediateFrames.enum.map (fun p =>
      ⟨p.2, 0.15 + ((p.1 : ℝ) / (s.intermediateFrames.length : ℝ)) * 0.3⟩)
  else
    [⟨quatSlerp s.startQuat s.endQuat s.animationProgress, 1⟩]

/-- The state update performed at the end of `render()` (lines 408–418):
while animating, `progress += speed`; if the result reaches 1, either hard
reset to 0 (when looping) or clamp to 1 and stop. -/
def advance (s : EngineState) : EngineState :=
  if s.isAnimating then
    let p := s.animationProgress + s.animationSpeed
    if 1 ≤ p then
      if s.loopAnimation then
        { s with animationProgress := 0 }
      else
        { s with animationProgress := 1, isAnimating := false }
    else
      { s with animationProgress := p }
  else s

/-- One full `render()` tick: the draw calls issued, and the advanced state. -/
def renderTick (s : EngineState) : List DrawCone × EngineState :=
  (renderDrawList s, advance s)

/-- An axis-setter call, for reasoning about arbitrary sequences of
`setStartAxis`/`setEndAxis`. -/
inductive AxisOp where
  | setStart (v : Vec3)
  | setEnd (v : Vec3)

/-- Apply one axis-setter call. -/
def applyAxisOp (s : EngineState) (op : AxisOp) : EngineState :=
  match op with
  | .setStart v => setStartAxis s v
  | .setEnd v => setEndAxis s v

/-- Apply a sequence of axis-setter calls, oldest first. -/
def applyAxisOps (s : EngineState) (ops : List AxisOp) : EngineState :=
  ops.foldl applyAxisOp s

end

/-! Field-projection lemmas, all definitional. -/

@[simp] lemma startAnimation_isAnimating (s : EngineState) :
    (startAnimation s).isAnimating = true := rfl

@[simp] lemma startAnimation_animationProgress (s : EngineState) :
    (startAnimation s).animationProgress = 0 := rfl

@[simp] lemma startAnimation_animationSpeed (s : EngineState) :
    (startAnimation s).animationSpeed = s.animationSpeed := rfl

@[simp] lemma startAnimation_loopAnimation (s : EngineState) :
    (startAnimation s).loopAnimation = s.loopAnimation := rfl

@[simp] lemma startAnimation_showIntermediateFrames (s : EngineState) :
    (startAnimation s).showIntermediateFrames = s.showIntermediateFrames := rfl

@[simp] lemma setAnimationSpeed_animationSpeed (s : EngineState) (v : ℝ) :
    (setAnimationSpeed s v).animationSpeed = v := rfl

@[simp] lemma setAnimationSpeed_animationProgress (s : EngineState) (v : ℝ) :
    (setAnimationSpeed s v).animationProgress = s.animationProgress := rfl

@[simp] lemma setAnimationSpeed_isAnimating (s : EngineState) (v : ℝ) :
    (setAnimationSpeed s v).isAnimating = s.isAnimating := rfl

@[simp] lemma setAnimationSpeed_loopAnimation (s : EngineState) (v : ℝ) :
    (setAnimationSpeed s v).loopAnimation = s.loopAnimation := rfl

@[simp] lemma setLoopAnimation_loopAnimation (s : EngineState) (b : Bool) :
    (setLoopAnimation s b).loopAnimation = b := rfl

@[simp] lemma setLoopAnimation_isAnimating (s : EngineState) (b : Bool) :
    (setLoopAnimation s b).isAnimating = s.isAnimating := rfl

@[simp] lemma setLoopAnimation_animationProgress (s : EngineState) (b : Bool) :
    (setLoopAnimation s b).animationProgress = s.animationProgress := rfl

@[simp] lemma setLoopAnimation_animationSpeed (s : EngineState) (b : Bool) :
    (setLoopAnimation s b).animationSpeed = s.animationSpeed := rfl

@[simp] lemma updateOrientationQuaternions_animationProgress (s : EngineState) :
    (updateOrientationQuaternions s).animationProgress = s.animationProgress := rfl

@[simp] lemma updateOrientationQuaternions_isAnimating (s : EngineState) :
    (updateOrientationQuaternions s).isAnimating = s.isAnimating := rfl

@[simp] lemma updateOrientationQuaternions_animationSpeed (s : EngineState) :
    (updateOrientationQuaternions s).animationSpeed = s.animationSpeed := rfl

@[simp] lemma updateOrientationQuaternions_loopAnimation (s : EngineState) :
    (updateOrientationQuaternions s).loopAnimation = s.loopAnimation := rfl

@[simp] lemma updateOrientationQuaternions_showIntermediateFrames (s : EngineState) :
    (updateOrientationQuaternions s).showIntermediateFrames = s.showIntermediateFrames := rfl

@[simp] lemma updateOrientationQuaternions_coneParams (s : EngineState) :
    (updateOrientationQuaternions s).coneParams = s.coneParams := rfl

@[simp] lemma updateOrientationQuaternions_startAxis (s : EngineState) :
    (updateOrientationQuaternions s).startAxis = s.startAxis := rfl

@[simp] lemma updateOrientationQuaternions_endAxis (s : EngineState) :
    (updateOrientationQuaternions s).endAxis = s.endAxis := rfl

@[simp] lemma updateOrientationQuaternions_startQuat (s : EngineState) :
    (updateOrientationQuaternions s).startQuat = quatRotationTo upVector s.startAxis := rfl

@[simp] lemma updateOrientationQuaternions_endQuat (s : EngineState) :
    (updateOrientationQuaternions s).endQuat = quatRotationTo upVector s.endAxis := rfl

lemma updateOrientationQuaternions_intermediateFrames (s : EngineState) :
    (updateOrientationQuaternions s).intermediateFrames =
      (List.range 21).map (fun (i : ℕ) =>
        quatSlerp (quatRotationTo upVector s.startAxis) (quatRotationTo upVector s.endAxis)
          ((i : ℝ) / 20)) := rfl

@[simp] lemma setStartAxis_startAxis (s : EngineState) (v : Vec3) :
    (setStartAxis s v).startAxis = vec3normalize v := rfl

@[simp] lemma setStartAxis_endAxis (s : EngineState) (v : Vec3) :
    (setStartAxis s v).endAxis = s.endAxis := rfl

@[simp] lemma setStartAxis_startQuat (s : EngineState) (v : Vec3) :
    (setStartAxis s v).startQuat = quatRotationTo upVector (vec3normalize v) := rfl

@[simp] lemma setStartAxis_endQuat (s : EngineState) (v : Vec3) :
    (setStartAxis s v).endQuat = quatRotationTo upVector s.endAxis := rfl

@[simp] lemma setEndAxis_endAxis (s : EngineState) (v : Vec3) :
    (setEndAxis s v).endAxis = vec3normalize v := rfl

@[simp] lemma setEndAxis_startAxis (s : EngineState) (v : Vec3) :
    (setEndAxis s v).startAxis = s.startAxis := rfl

@[simp] lemma setEndAxis_endQuat (s : EngineState) (v : Vec3) :
    (setEndAxis s v).endQuat = quatRotationTo upVector (vec3normalize v) := rfl

@[simp] lemma setEndAxis_startQuat (s : EngineState) (v : Vec3) :
    (setEndAxis s v).startQuat = quatRotationTo upVector s.startAxis := rfl

@[simp] lemma initialState_animationProgress : initialState.animationProgress = 0 := rfl

@[simp] lemma initialState_isAnimating : initialState.isAnimating = false := rfl

@[simp] lemma initialState_animationSpeed : initialState.animationSpeed = 0.01 := rfl

@[simp] lemma initialState_loopAnimation : initialState.loopAnimation = true := rfl

@[simp] lemma initialState_showIntermediateFrames :
    initialState.showIntermediateFrames = true := rfl

@[simp] lemma initialState_coneParams : initialState.coneParams = ⟨1, 2, 32⟩ := rfl

@[simp] lemma initialState_startAxis : initialState.startAxis = ⟨0, 1, 0⟩ := rfl

@[simp] lemma initialState_endAxis : initialState.endAxis = ⟨1, 0, 0⟩ := rfl

/-! The shape of one `advance` step, by cases on the guards. -/

lemma advance_of_not_animating (s : EngineState) (h : s.isAnimating = false) :
    advance s = s := by
  simp [advance, h]

lemma advance_animating_lt (s : EngineState) (h : s.isAnimating = true)
    (hlt : s.animationProgress + s.animationSpeed < 1) :
    advance s = { s with animationProgress := s.animationProgress + s.animationSpeed } := by
  rw [advance, if_pos h, if_neg (not_le.mpr hlt)]

lemma advance_animating_ge_loop (s : EngineState) (h : s.isAnimating = true)
    (hge : 1 ≤ s.animationProgress + s.animationSpeed) (hl : s.loopAnimation = true) :
    advance s = { s with animationProgress := 0 } := by
  rw [advance, if_pos h, if_pos hge, if_pos hl]

lemma advance_animating_ge_noloop (s : EngineState) (h : s.isAnimating = true)
    (hge : 1 ≤ s.animationProgress + s.animationSpeed) (hl : s.loopAnimation = false) :
    advance s = { s with animationProgress := 1, isAnimating := false } := by
  rw [advance, if_pos h, if_pos hge, if_neg (by simp [hl])]

/-- C1: the claim asserts that with `loop = true` the per-frame advance wraps by
`progress := progress − 1`, preserving the overshoot fraction, so that progress
after `N` steps of size `speed` equals `(N·speed) mod 1`.  The code instead
hard-resets `progress` to `0` on wrap (`this.animationProgress = 0`).
Counterexample: from a playing, looping state with `speed = 7/10` and
`progress = 0`, two advance steps leave `progress = 0`, whereas
`(2 · 7/10) mod 1 = 2/5`. -/
theorem advance_loop_wrap_claim_false :
    (advance (advance (startAnimation (setAnimationSpeed initialState (7/10))))).animationProgress
        = 0 ∧
    Int.fract ((2 : ℝ) * (7/10)) = 2/5 ∧ ((0 : ℝ) ≠ 2/5) := by
  refine ⟨?_, ?_, by norm_num⟩
  · have h1 : advance (startAnimation (setAnimationSpeed initialState (7/10))) =
        { startAnimation (setAnimationSpeed initialState (7/10)) with
          animationProgress := 0 + 7/10 } := by
      rw [advance_animating_lt _ (by simp) (by norm_num)]
      simp
    rw [h1, advance_animating_ge_loop _ (by simp) (by norm_num) (by simp)]
  · rw [show (2 : ℝ) * (7/10) = 1 + 2/5 by norm_num, Int.fract_one_add]
    rw [Int.fract_eq_self.mpr (by norm_num)]

/-- C1 (amended): with `loop = true` and the clock Playing, the per-frame
advance performs `progress += speed` and, if the result reaches 1, hard-resets
`progress` to `0`, discarding the overshoot fraction (it does not subtract 1);
the clock stays Playing. -/
theorem advance_loop_hard_reset (s : EngineState) (h1 : s.isAnimating = true)
    (h2 : s.loopAnimation = true) :
    (advance s).isAnimating = true ∧
    (advance s).animationProgress =
      if 1 ≤ s.animationProgress + s.animationSpeed then 0
      else s.animationProgress + s.animationSpeed := by
  by_cases hge : 1 ≤ s.animationProgress + s.animationSpeed
  · rw [advance_animating_ge_loop s h1 hge h2]
    simp [hge, h1]
  · rw [advance_animating_lt s h1 (not_le.mp hge)]
    simp [hge, h1]

/-- Witness for C1's amended theorem at the state reached by `startAnimation()`
on the freshly constructed engine. -/
theorem advance_loop_hard_reset_witness :
    (startAnimation initialState).isAnimating = true ∧
    (startAnimation initialState).loopAnimation = true ∧
    ((advance (startAnimation initialState)).isAnimating = true ∧
     (advance (startAnimation initialState)).animationProgress =
       if 1 ≤ (startAnimation initialState).animationProgress +
           (startAnimation initialState).animationSpeed then 0
       else (startAnimation initialState).animationProgress +
          (startAnimation initialState).animationSpeed) :=
  ⟨by simp, by simp, advance_loop_hard_reset _ (by simp) (by simp)⟩

/-- C3: the claim asserts that `start()` (i.e. `startAnimation()`) leaves
`progress` unchanged when the previous transition was not an explicit
`reset()`.  The code unconditionally sets `this.animationProgress = 0`.
Counterexample: play at speed `1/2`, advance one frame (progress becomes
`1/2`, the previous transition being an advance, not a reset), then call
`startAnimation()` again: progress becomes `0`, not `1/2`. -/
theorem startAnimation_claim_false :
    (advance (startAnimation (setAnimationSpeed initialState (1/2)))).animationProgress = 1/2 ∧
    (startAnimation
        (advance (startAnimation (setAnimationSpeed initialState (1/2))))).animationProgress
      = 0 ∧
    ((1/2 : ℝ) ≠ 0) := by
  refine ⟨?_, by simp, by norm_num⟩
  rw [advance_animating_lt _ (by simp) (by norm_num)]
  simp

/-- C3 (amended): `startAnimation()` always transitions the clock to Playing
and always resets `progress` to `0`, whatever the previous state or
transition was. -/
theorem startAnimation_resets_progress (s : EngineState) :
    (startAnimation s).isAnimating = true ∧ (startAnimation s).animationProgress = 0 :=
  ⟨rfl, rfl⟩

/-- C6: with `loop = false` and the clock Playing, the first advance step at
which `progress` would reach or exceed 1 sets `progress` to exactly 1 and
stops the clock; any number of further advance steps leaves that stopped
state unchanged, so the Playing → Stopped transition happens exactly once and
progress stays saturated at 1. -/
theorem advance_noloop_saturates (s : EngineState) (h : s.isAnimating = true)
    (hl : s.loopAnimation = false)
    (hge : 1 ≤ s.animationProgress + s.animationSpeed) :
    (advance s).animationProgress = 1 ∧ (advance s).isAnimating = false ∧
    ∀ n : ℕ, advance^[n] (advance s) = advance s := by
  rw [advance_animating_ge_noloop s h hge hl]
  refine ⟨rfl, rfl, ?_⟩
  intro n
  induction n with
  | zero => rfl
  | succ k ih =>
    rw [Function.iterate_succ_apply', ih, advance_of_not_animating _ rfl]

/-- Witness for C6 at a playing, non-looping state with `speed = 2` and
`progress = 0`, where a single step overshoots 1. -/
theorem advance_noloop_saturates_witness :
    (setLoopAnimation (startAnimation (setAnimationSpeed initialState 2)) false).isAnimating
        = true ∧
    (setLoopAnimation (startAnimation (setAnimationSpeed initialState 2)) false).loopAnimation
        = false ∧
    (1 : ℝ) ≤
      (setLoopAnimation (startAnimation (setAnimationSpeed initialState 2)) false).animationProgress
        + (setLoopAnimation (startAnimation (setAnimationSpeed initialState 2)) false).animationSpeed ∧
    ((advance (setLoopAnimation (startAnimation (setAnimationSpeed initialState 2)) false)).animationProgress = 1 ∧
     (advance (setLoopAnimation (startAnimation (setAnimationSpeed initialState 2)) false)).isAnimating = false ∧
     advance^[3] (advance (setLoopAnimation (startAnimation (setAnimationSpeed initialState 2)) false)) =
       advance (setLoopAnimation (startAnimation (setAnimationSpeed initialState 2)) false)) := by
  have h := advance_noloop_saturates
    (setLoopAnimation (startAnimation (setAnimationSpeed initialState 2)) false)
    (by simp) (by simp) (by norm_num)
  exact ⟨by simp, by simp, by norm_num, h.1, h.2.1, h.2.2 3⟩

/-- C7: the claim asserts that `setAnimationSpeed(v)` fails with a
ValidationError for `v ≤ 0` and retains the prior speed.  The code stores the
given speed unconditionally.  Counterexample: `setAnimationSpeed(-1)` on the
freshly constructed engine (prior speed `0.01`) stores `-1`. -/
theorem setAnimationSpeed_claim_false :
    (setAnimationSpeed initialState (-1)).animationSpeed = -1 ∧
    initialState.animationSpeed = 0.01 ∧ ((-1 : ℝ) ≠ 0.01) :=
  ⟨rfl, rfl, by norm_num⟩

/-- C7 (amended): `setAnimationSpeed(v)` performs no validation: it stores `v`
as the new speed for every `v`, including `v ≤ 0`, and leaves progress and the
play state untouched. -/
theorem setAnimationSpeed_no_validation (s : EngineState) (v : ℝ) :
    (setAnimationSpeed s v).animationSpeed = v ∧
    (setAnimationSpeed s v).animationProgress = s.animationProgress ∧
    (setAnimationSpeed s v).isAnimating = s.isAnimating ∧
    (setAnimationSpeed s v).loopAnimation = s.loopAnimation :=
  ⟨rfl, rfl, rfl, rfl⟩

/-! Mesh size lemmas for `generateCone`. -/

lemma length_flatMap_triple {α : Type*} (l : List α) (f : α → List ℕ)
    (hf : ∀ a, (f a).length = 3) : (l.flatMap f).length = 3 * l.length := by
  induction l with
  | nil => simp
  | cons a t ih =>
    rw [List.flatMap_cons, List.length_append, ih, hf, List.length_cons]
    ring

lemma generateCone_indices_length (p : ConeParams) :
    (generateCone p).indices.length = 6 * p.segments := by
  simp only [generateCone, List.length_append]
  rw [length_flatMap_triple (List.range p.segments)
        (fun i => [0, i + 1, i + 2]) (fun a => rfl),
      length_flatMap_triple ((List.range p.segments).map (fun k => p.segments - k))
        (fun i => [1 + (p.segments + 1), i + 1, i]) (fun a => rfl)]
  simp only [List.length_range, List.length_map]
  ring

lemma generateCone_vertices_length (p : ConeParams) :
    (generateCone p).vertices.length = p.segments + 3 := by
  simp [generateCone]

/-- C5: for every `segmentCount = n ≥ 3` (and any radius and height), the cone
mesh built by `generateCone` has an indices array of length exactly `6n`
(`n` side plus `n` base triangles, 3 indices each) and exactly `n + 3`
vertices (apex, `n+1` ring vertices with the seam duplicated, base-center). -/
theorem generateCone_counts (r h : ℝ) (n : ℕ) (hn : 3 ≤ n) :
    (generateCone ⟨r, h, n⟩).indices.length = 6 * n ∧
    (generateCone ⟨r, h, n⟩).vertices.length = n + 3 :=
  ⟨generateCone_indices_length _, generateCone_vertices_length _⟩

/-- Witness for C5 at `ConeParameters{radius=1, height=2, segmentCount=4}`:
exactly 24 index entries and 7 vertices. -/
theorem generateCone_counts_witness :
    (3 ≤ 4) ∧ (generateCone ⟨1, 2, 4⟩).indices.length = 24 ∧
    (generateCone ⟨1, 2, 4⟩).vertices.length = 7 := by
  have h := generateCone_counts 1 2 4 (by norm_num)
  refine ⟨by norm_num, ?_, ?_⟩
  · rw [h.1]
  · rw [h.2]

/-- C8: the claim asserts that degenerate cone parameters (`segmentCount < 3`,
`radius ≤ 0` or `height ≤ 0`) are rejected with a ValidationError before any
buffer construction, prior state retained.  The code validates nothing:
`setConeParams` merges the patch and rebuilds the buffers.  Counterexample:
`setConeParams({segments: 2})` on the freshly constructed engine replaces the
prior `segments = 32` by `2` and builds a 12-entry index buffer. -/
theorem setConeParams_claim_false :
    (setConeParams initialState ⟨none, none, some 2⟩).coneParams.segments = 2 ∧
    initialState.coneParams.segments = 32 ∧ ((2 : ℕ) ≠ 32) ∧
    (setConeParams initialState ⟨none, none, some 2⟩).coneVertexCount = 12 := by
  refine ⟨rfl, rfl, by norm_num, ?_⟩
  show (generateCone (mergeConeParams initialState.coneParams ⟨none, none, some 2⟩)).indices.length = 12
  rw [generateCone_indices_length]
  rfl

/-- C8 (amended): `setConeParams` performs no validation and never fails: for
every patch, including degenerate values, it installs the merged parameters
and rebuilds the mesh buffers, whose sizes follow the merged `segments`. -/
theorem setConeParams_no_validation (s : EngineState) (q : ConeParamsPatch) :
    (setConeParams s q).coneParams = mergeConeParams s.coneParams q ∧
    (setConeParams s q).coneVertexCount = 6 * (mergeConeParams s.coneParams q).segments ∧
    (setConeParams s q).mesh.vertices.length = (mergeConeParams s.coneParams q).segments + 3 :=
  ⟨rfl, generateCone_indices_length _, generateCone_vertices_length _⟩

/-! Evaluation lemmas for the axis-to-quaternion pipeline. -/

lemma vec3normalize_zero : vec3normalize ⟨0, 0, 0⟩ = ⟨0, 0, 0⟩ := by
  norm_num [vec3normalize]

lemma quatRotationTo_up_zero : quatRotationTo upVector ⟨0, 0, 0⟩ = ⟨0, 0, 0, 1⟩ := by
  norm_num [quatRotationTo, vec3dot, vec3cross, quatNormalize, upVector, Real.sqrt_one]

lemma vec3normalize_unitY : vec3normalize ⟨0, 1, 0⟩ = ⟨0, 1, 0⟩ := by
  norm_num [vec3normalize, Real.sqrt_one]

lemma vec3normalize_negY : vec3normalize ⟨0, -1, 0⟩ = ⟨0, -1, 0⟩ := by
  norm_num [vec3normalize, Real.sqrt_one]

lemma quatRotationTo_up_unitY : quatRotationTo upVector ⟨0, 1, 0⟩ = ⟨0, 0, 0, 1⟩ := by
  norm_num [quatRotationTo, vec3dot, upVector]

lemma quatRotationTo_up_negY : quatRotationTo upVector ⟨0, -1, 0⟩ = ⟨0, 0, 1, 0⟩ := by
  norm_num [quatRotationTo, vec3dot, vec3cross, vec3len, vec3normalize, quatSetAxisAngle,
    upVector, Real.sqrt_one]
  rw [show Real.pi * (1/2) = Real.pi / 2 by ring, Real.sin_pi_div_two, Real.cos_pi_div_two]
  norm_num

lemma quatSlerp_id_k_half :
    quatSlerp ⟨0, 0, 0, 1⟩ ⟨0, 0, 1, 0⟩ (1/2) = ⟨0, 0, Real.sqrt 2 / 2, Real.sqrt 2 / 2⟩ := by
  norm_num [quatSlerp, Real.arccos_zero, Real.sin_pi_div_two]
  rw [show (1/2 : ℝ) * (Real.pi / 2) = Real.pi / 4 by ring, Real.sin_pi_div_four]

lemma eq_zero_of_vec3len_zero (v : Vec3) (hv : vec3len v = 0) : v = ⟨0, 0, 0⟩ := by
  obtain ⟨x, y, z⟩ := v
  simp only [vec3len] at hv
  have h0 : x * x + y * y + z * z ≤ 0 := Real.sqrt_eq_zero'.mp hv
  have hx : x = 0 := mul_self_eq_zero.mp
    (le_antisymm (by nlinarith [mul_self_nonneg y, mul_self_nonneg z]) (mul_self_nonneg x))
  have hy : y = 0 := mul_self_eq_zero.mp
    (le_antisymm (by nlinarith [mul_self_nonneg x, mul_self_nonneg z]) (mul_self_nonneg y))
  have hz : z = 0 := mul_self_eq_zero.mp
    (le_antisymm (by nlinarith [mul_self_nonneg x, mul_self_nonneg y]) (mul_self_nonneg z))
  rw [hx, hy, hz]

/-- C2: the claim asserts that a zero-length vector passed to `setStartAxis`
or `setEndAxis` fails with a ValidationError and leaves the Orientation state
unchanged.  The code validates nothing: `vec3.normalize` maps the zero vector
to the zero vector, which is then stored as the new axis.  Counterexample: on
the freshly constructed engine (start axis `(0,1,0)`), `setStartAxis((0,0,0))`
overwrites the stored start axis with `(0,0,0)`. -/
theorem setAxis_zero_claim_false :
    (setStartAxis initialState ⟨0, 0, 0⟩).startAxis = Vec3.mk 0 0 0 ∧
    initialState.startAxis = Vec3.mk 0 1 0 ∧
    (Vec3.mk (0 : ℝ) 0 0 ≠ Vec3.mk (0 : ℝ) 1 0) := by
  refine ⟨?_, rfl, ?_⟩
  · rw [setStartAxis_startAxis, vec3normalize_zero]
  · norm_num [Vec3.mk.injEq]

/-- C2 (amended): `setStartAxis`/`setEndAxis` never fail.  On a zero-length
input vector they store the zero vector `(0,0,0)` as the axis (mutating the
Orientation state) and re-derive the quaternion, which becomes the identity
`(0,0,0,1)` through the generic `rotationTo` branch. -/
theorem setAxis_zero_no_error (s : EngineState) (v : Vec3) (hv : vec3len v = 0) :
    (setStartAxis s v).startAxis = Vec3.mk 0 0 0 ∧
    (setStartAxis s v).startQuat = Quat.mk 0 0 0 1 ∧
    (setEndAxis s v).endAxis = Vec3.mk 0 0 0 ∧
    (setEndAxis s v).endQuat = Quat.mk 0 0 0 1 := by
  have hv0 := eq_zero_of_vec3len_zero v hv
  subst hv0
  exact ⟨by rw [setStartAxis_startAxis, vec3normalize_zero],
    by rw [setStartAxis_startQuat, vec3normalize_zero, quatRotationTo_up_zero],
    by rw [setEndAxis_endAxis, vec3normalize_zero],
    by rw [setEndAxis_endQuat, vec3normalize_zero, quatRotationTo_up_zero]⟩

/-- Witness for C2's amended theorem at the freshly constructed engine and the
concrete zero vector. -/
theorem setAxis_zero_no_error_witness :
    vec3len ⟨0, 0, 0⟩ = 0 ∧
    ((setStartAxis initialState ⟨0, 0, 0⟩).startAxis = Vec3.mk 0 0 0 ∧
     (setStartAxis initialState ⟨0, 0, 0⟩).startQuat = Quat.mk 0 0 0 1 ∧
     (setEndAxis initialState ⟨0, 0, 0⟩).endAxis = Vec3.mk 0 0 0 ∧
     (setEndAxis initialState ⟨0, 0, 0⟩).endQuat = Quat.mk 0 0 0 1) :=
  ⟨by norm_num [vec3len],
   setAxis_zero_no_error initialState ⟨0, 0, 0⟩ (by norm_num [vec3len])⟩

/-- The engine state after `setStartAxis((0,1,0))` followed by
`setEndAxis((0,-1,0))` — the antiparallel configuration of C10. -/
noncomputable def antiparallelState : EngineState :=
  setEndAxis (setStartAxis initialState ⟨0, 1, 0⟩) ⟨0, -1, 0⟩

/-- C10: in the antiparallel configuration `setStartAxis((0,1,0))`,
`setEndAxis((0,-1,0))`, the shortest-arc construction takes the explicit
antiparallel branch of `quat.rotationTo` and produces well-defined unit
quaternions — the identity for the start and the rotation by π about the
perpendicular axis `(0,0,1)` for the end — with no NaN components (in this
real-valued model, every component is the explicitly computed real value
shown, and both squared norms are exactly 1).  `sample(0.5)` is the valid
unit quaternion `(0,0,√2/2,√2/2)`, i.e. exactly the 90° rotation about the
perpendicular axis `(0,0,1)`. -/
theorem antiparallel_no_nan :
    antiparallelState.startQuat = Quat.mk 0 0 0 1 ∧
    antiparallelState.endQuat = Quat.mk 0 0 1 0 ∧
    quatNormSq antiparallelState.startQuat = 1 ∧
    quatNormSq antiparallelState.endQuat = 1 ∧
    sample antiparallelState (1/2) = Quat.mk 0 0 (Real.sqrt 2 / 2) (Real.sqrt 2 / 2) ∧
    quatNormSq (sample antiparallelState (1/2)) = 1 ∧
    sample antiparallelState (1/2) = quatSetAxisAngle ⟨0, 0, 1⟩ (Real.pi / 2) := by
  have h1 : antiparallelState.startQuat = Quat.mk 0 0 0 1 := by
    rw [antiparallelState, setEndAxis_startQuat, setStartAxis_startAxis, vec3normalize_unitY,
      quatRotationTo_up_unitY]
  have h2 : antiparallelState.endQuat = Quat.mk 0 0 1 0 := by
    rw [antiparallelState, setEndAxis_endQuat, vec3normalize_negY, quatRotationTo_up_negY]
  have h3 : sample antiparallelState (1/2) = Quat.mk 0 0 (Real.sqrt 2 / 2) (Real.sqrt 2 / 2) := by
    rw [sample, h1, h2, quatSlerp_id_k_half]
  have hs2 : Real.sqrt 2 * Real.sqrt 2 = 2 := Real.mul_self_sqrt (by norm_num)
  refine ⟨h1, h2, by rw [h1]; norm_num [quatNormSq], by rw [h2]; norm_num [quatNormSq], h3,
    ?_, ?_⟩
  · rw [h3]
    simp only [quatNormSq]
    nlinarith [hs2]
  · rw [h3]
    simp only [quatSetAxisAngle]
    rw [show Real.pi / 2 * 0.5 = Real.pi / 4 by ring, Real.sin_pi_div_four,
      Real.cos_pi_div_four]
    norm_num

/-! Freshness of the intermediate-frame table. -/

/-- The table is exactly the 21 SLERP samples of the currently stored
quaternions at `t = i/20`. -/
def TableFresh (s : EngineState) : Prop :=
  s.intermediateFrames =
    (List.range 21).map (fun (i : ℕ) => quatSlerp s.startQuat s.endQuat ((i : ℝ) / 20))

lemma tableFresh_generateIntermediateFrames (s : EngineState) :
    TableFresh (generateIntermediateFrames s) := rfl

lemma tableFresh_updateOrientationQuaternions (s : EngineState) :
    TableFresh (updateOrientationQuaternions s) :=
  tableFresh_generateIntermediateFrames _

lemma tableFresh_initialState : TableFresh initialState :=
  tableFresh_updateOrientationQuaternions _

lemma tableFresh_applyAxisOp (s : EngineState) (op : AxisOp) :
    TableFresh (applyAxisOp s op) := by
  cases op with
  | setStart v => exact tableFresh_updateOrientationQuaternions _
  | setEnd v => exact tableFresh_updateOrientationQuaternions _

lemma tableFresh_applyAxisOps (ops : List AxisOp) :
    ∀ s : EngineState, TableFresh s → TableFresh (applyAxisOps s ops) := by
  induction ops with
  | nil => exact fun s h => h
  | cons op t ih =>
    intro s h
    rw [applyAxisOps, List.foldl_cons]
    exact ih _ (tableFresh_applyAxisOp s op)

/-- C4: after engine construction (`ops = []`) and after every sequence of
`setStartAxis`/`setEndAxis` calls, the intermediate-frame table has exactly 21
entries, entry `i` equals `SLERP(start.quaternion, end.quaternion, i/20)`
(the table is regenerated eagerly on every axis change, so it is never
stale), and in particular the first entry equals `sample(0)` and the last
entry equals `sample(1)`. -/
theorem intermediateFrameTable_invariant (ops : List AxisOp) :
    (applyAxisOps initialState ops).intermediateFrames =
      (List.range 21).map
        (fun (i : ℕ) => sample (applyAxisOps initialState ops) ((i : ℝ) / 20)) ∧
    (applyAxisOps initialState ops).intermediateFrames.length = 21 ∧
    (applyAxisOps initialState ops).intermediateFrames.head? =
      some (sample (applyAxisOps initialState ops) 0) ∧
    (applyAxisOps initialState ops).intermediateFrames.getLast? =
      some (sample (applyAxisOps initialState ops) 1) := by
  have hf := tableFresh_applyAxisOps ops initialState tableFresh_initialState
  rw [TableFresh] at hf
  refine ⟨by simp only [sample]; exact hf, by rw [hf]; simp, ?_, ?_⟩
  · rw [hf, show (21 : ℕ) = 20 + 1 from rfl, List.range_succ_eq_map]
    simp only [List.map_cons, List.head?_cons]
    norm_num [sample]
  · rw [hf, show (21 : ℕ) = 20 + 1 from rfl, List.range_succ, List.map_append]
    simp only [List.map_cons, List.map_nil]
    rw [List.getLast?_concat]
    norm_num [sample]

/-- C9: on every rendered frame, if the clock is not Playing and the trail is
enabled, one cone is drawn per intermediate-frame-table entry, entry `i`
drawn with `alpha = 0.15 + (i/N)·0.3` where `N` is the table length, so the
alphas increase monotonically from the oldest to the newest sample; otherwise
exactly one fully-opaque cone (`alpha = 1`) is drawn at `sample(progress)`,
computed directly by SLERP, not looked up from the table. -/
theorem renderDrawList_spec (s : EngineState) :
    (s.showIntermediateFrames = true → s.isAnimating = false →
      (renderDrawList s).length = s.intermediateFrames.length ∧
      (∀ (i : ℕ) (q : Quat), s.intermediateFrames[i]? = some q →
        (renderDrawList s)[i]? =
          some ⟨q, 0.15 + ((i : ℝ) / (s.intermediateFrames.length : ℝ)) * 0.3⟩) ∧
      (∀ i j : ℕ, i < j → j < s.intermediateFrames.length →
        0.15 + ((i : ℝ) / (s.intermediateFrames.length : ℝ)) * 0.3 <
          0.15 + ((j : ℝ) / (s.intermediateFrames.length : ℝ)) * 0.3)) ∧
    (s.showIntermediateFrames = false ∨ s.isAnimating = true →
      renderDrawList s = [⟨sample s s.animationProgress, 1⟩]) := by
  constructor
  · intro hs ha
    have hrl : renderDrawList s = s.intermediateFrames.enum.map (fun p =>
        ⟨p.2, 0.15 + ((p.1 : ℝ) / (s.intermediateFrames.length : ℝ)) * 0.3⟩) := by
      simp [renderDrawList, hs, ha]
    refine ⟨by rw [hrl]; simp, ?_, ?_⟩
    · intro i q hq
      rw [hrl]
      simp [List.getElem?_map, List.getElem?_enum, hq]
    · intro i j hij hj
      have hlen : (0 : ℝ) < (s.intermediateFrames.length : ℝ) := by
        exact_mod_cast Nat.pos_of_ne_zero (by omega)
      have hdiv : (i : ℝ) / (s.intermediateFrames.length : ℝ) <
          (j : ℝ) / (s.intermediateFrames.length : ℝ) :=
        (div_lt_div_iff_of_pos_right hlen).mpr (by exact_mod_cast hij)
      nlinarith [hdiv]
  · intro h
    rcases h with hb | ha
    · simp [renderDrawList, hb, sample]
    · simp [renderDrawList, ha, sample]

/-- Witness for C9, covering both branches: the trail branch at the freshly
constructed engine (trail shown, not playing), and the playback branch after
`startAnimation()`. -/
theorem renderDrawList_spec_witness :
    initialState.showIntermediateFrames = true ∧
    initialState.isAnimating = false ∧
    (renderDrawList initialState).length = initialState.intermediateFrames.length ∧
    renderDrawList (startAnimation initialState) =
      [⟨sample (startAnimation initialState) (startAnimation initialState).animationProgress,
        1⟩] :=
  ⟨rfl, rfl, ((renderDrawList_spec initialState).1 rfl rfl).1,
   (renderDrawList_spec (startAnimation initialState)).2 (Or.inr rfl)⟩

end ConeAnim
